import Mathlib

/-!
Verification of `analyze_fire_data.py`: a script that loads the Canadian
National Fire Database ignition-point table, prints summary statistics and
writes a fixed set of chart images.

The shallow embedding below models the table as a list of records with the
five loaded columns.  Numeric columns are embedded as rationals (sizes,
coordinates) and integers (years); the `CAUSE` column is `Option String`,
`none` standing for a missing/null entry (pandas `NaN`), since pandas
`value_counts` and `groupby` drop null keys by default.  The pandas sampling
primitive `DataFrame.sample(k, random_state=s)` is modelled by a concrete
deterministic seeded shuffle followed by a prefix: the properties the spec
relies on (determinism in the seed, sampling without replacement, whole-table
sample when `k` reaches the length) are proved of this model.  Output
behaviour (console lines, image files written) is modelled as data returned
by the corresponding functions; an uncaught library exception is modelled by
`Except.error`, which terminates `main` with a nonzero exit status.
-/

namespace FireData

/-- One row of the loaded table: the five columns read by `load_data`. -/
structure Record where
  latitude : ℚ
  longitude : ℚ
  year : ℤ
  size_ha : ℚ
  cause : Option String
deriving DecidableEq, Inhabited

/-- The Ignition Record Table: an ordered collection of records. -/
abbrev Table := List Record

/-- The `SIZE_HA` column of the table. -/
def sizes (df : Table) : List ℚ := df.map Record.size_ha

/-- `Series.mean()`: arithmetic mean, `NaN` (here `none`) on an empty column. -/
def mean (l : List ℚ) : Option ℚ :=
  if l.isEmpty then none else some (l.sum / (l.length : ℚ))

/-- The column sorted ascending, as used by the median. -/
def sortedVals (l : List ℚ) : List ℚ :=
  List.insertionSort (fun a b : ℚ => a ≤ b) l

/-- `Series.median()`: middle element for odd length, mean of the two middle
elements for even length, `NaN` (here `none`) on an empty column. -/
def median (l : List ℚ) : Option ℚ :=
  if l.isEmpty then none
  else some (((sortedVals l).getD ((l.length - 1) / 2) 0 +
      (sortedVals l).getD (l.length / 2) 0) / 2)

/-- Rounding to two decimal places, as performed by the `:.2f` format. -/
def roundTo2 (q : ℚ) : ℚ := ((round (q * 100) : ℤ) : ℚ) / 100

/-- Decimal rendering of a rational at two decimal places (`:.2f`). -/
def formatFixed2 (q : ℚ) : String :=
  let n : ℤ := round (q * 100)
  let sign := if n < 0 then "-" else ""
  let m := n.natAbs
  sign ++ toString (m / 100) ++ "." ++
    (if m % 100 < 10 then "0" else "") ++ toString (m % 100)

/-- `:.2f` applied to a possibly-NaN value: pandas prints `nan` for `NaN`. -/
def formatOpt2 : Option ℚ → String
  | none => "nan"
  | some q => formatFixed2 q

/-- Distinct elements of `l` not in `seen`, kept in first-appearance order. -/
def dedupFirstAux {α : Type} [DecidableEq α] (seen : List α) : List α → List α
  | [] => []
  | a :: l =>
    if a ∈ seen then dedupFirstAux seen l
    else a :: dedupFirstAux (a :: seen) l

/-- Distinct elements of a list in order of first appearance (the key order
pandas hash tables produce before any sort is applied). -/
def dedupFirst {α : Type} [DecidableEq α] (l : List α) : List α :=
  dedupFirstAux [] l

/-- Ordering on `(category, count)` pairs: descending by count, the order
`value_counts` presents its rows in. -/
def causeLe (a b : String × Nat) : Prop := b.2 ≤ a.2

instance : DecidableRel causeLe :=
  fun a b => inferInstanceAs (Decidable (b.2 ≤ a.2))

instance : IsTotal (String × Nat) causeLe :=
  ⟨fun a b => Nat.le_total b.2 a.2⟩

instance : IsTrans (String × Nat) causeLe :=
  ⟨fun _ _ _ h₁ h₂ => le_trans h₂ h₁⟩

/-- `Series.value_counts()` on the `CAUSE` column: null entries are dropped,
each distinct value is paired with its frequency, and the rows are sorted by
descending count (stably over the first-appearance key order). -/
def value_counts (col : List (Option String)) : List (String × Nat) :=
  let present := col.filterMap id
  List.insertionSort causeLe
    ((dedupFirst present).map fun c => (c, present.count c))

/-- What `summary` prints: the total count, the two displayed (two-decimal)
statistics with `none` for `nan`, and the cause-frequency rows. -/
structure SummaryOutput where
  totalFires : Nat
  avgSizeDisplayed : Option ℚ
  medianSizeDisplayed : Option ℚ
  causeCounts : List (String × Nat)

/-- `summary(df)`: total fires, mean and median of `SIZE_HA` (as displayed at
two decimals), and `value_counts` of `CAUSE`. -/
def summary (df : Table) : SummaryOutput :=
  { totalFires := df.length
    avgSizeDisplayed := (mean (sizes df)).map roundTo2
    medianSizeDisplayed := (median (sizes df)).map roundTo2
    causeCounts := value_counts (df.map Record.cause) }

/-- The three statistic lines `summary` prints on standard output. -/
def summaryLines (df : Table) : List String :=
  [ "Total fires: " ++ toString df.length,
    "Average size (ha): " ++ formatOpt2 (mean (sizes df)),
    "Median size (ha): " ++ formatOpt2 (median (sizes df)) ]

/-- Step of the deterministic pseudo-random generator used to model the
seeded sampling (`random_state=42`): a linear congruential generator. -/
def lcg (s : Nat) : Nat := (1103515245 * s + 12345) % 2147483648

/-- Deterministic seeded shuffle modelling the random permutation behind
`DataFrame.sample`: repeatedly extract the element at a generator-chosen
index.  The result is a permutation of the input, fixed by the seed. -/
def shuffle {α : Type} (seed : Nat) (l : List α) : List α :=
  match l with
  | [] => []
  | x :: xs =>
    let i := seed % (x :: xs).length
    (x :: xs).getD i x :: shuffle (lcg seed) ((x :: xs).eraseIdx i)
termination_by l.length
decreasing_by
  simp [List.length_eraseIdx, Nat.mod_lt]

/-- `DataFrame.sample(k, random_state=seed)`: `k` rows drawn without
replacement, deterministically in the seed. -/
def sampleRows {α : Type} (seed k : Nat) (l : List α) : List α :=
  (shuffle seed l).take k

/-- The `(LONGITUDE, LATITUDE)` column pair of a table. -/
def locations (df : Table) : List (ℚ × ℚ) :=
  df.map fun r => (r.longitude, r.latitude)

/-- `plot_sample_locations(df, n)`: the points scattered into
`fire_locations_sample.png`, namely `df[['LONGITUDE', 'LATITUDE']]
.sample(min(n, len(df)), random_state=42)`. -/
def plot_sample_locations (df : Table) (n : Nat) : List (ℚ × ℚ) :=
  sampleRows 42 (min n df.length) (locations df)

/-- Executable lexicographic order on strings by code point, the order pandas
sorts string group keys in (core `String.ltb` does not reduce in the kernel,
so the comparison is spelled out on the character lists). -/
def lexLe : List Char → List Char → Bool
  | [], _ => true
  | _ :: _, [] => false
  | a :: as, b :: bs =>
    if a < b then true
    else if b < a then false
    else lexLe as bs

/-- Propositional form of `lexLe` on strings. -/
def strLe (a b : String) : Prop := lexLe a.data b.data = true

instance : DecidableRel strLe :=
  fun a b => inferInstanceAs (Decidable (lexLe a.data b.data = true))

/-- The rows the `groupby("CAUSE")`-style operations keep: null causes are
dropped by pandas grouping and counting. -/
def dropNullCause (df : Table) : Table :=
  df.filter fun r => decide (r.cause ≠ none)

/-- The distinct non-null cause labels, sorted as `groupby("CAUSE")` sorts
its group keys. -/
def causesOf (df : Table) : List String :=
  List.insertionSort strLe (dedupFirst (df.filterMap Record.cause))

/-- The distinct years appearing in rows with a non-null cause, sorted: the
row labels of `df.groupby(["YEAR", "CAUSE"]).size().unstack(fill_value=0)`. -/
def pivotYears (df : Table) : List ℤ :=
  List.insertionSort (fun a b : ℤ => a ≤ b)
    (dedupFirst ((dropNullCause df).map Record.year))

/-- Membership test for the `(YEAR, CAUSE)` group of `y` and (non-null) `c`. -/
def matchYC (y : ℤ) (c : String) (r : Record) : Bool :=
  decide (r.year = y) && decide (r.cause = some c)

/-- Size of the `(y, c)` group of `df.groupby(["YEAR", "CAUSE"]).size()`. -/
def countYearCause (df : Table) (y : ℤ) (c : String) : Nat :=
  (df.filter (matchYC y c)).length

/-- `plot_yearly_by_cause(df)`: the pivot table behind
`fires_by_cause_year.png` — one row per observed year, one column per
observed cause, every cell filled with the group count (zero when the
combination is absent, via `unstack(fill_value=0)`). -/
def plot_yearly_by_cause (df : Table) : List (ℤ × List (String × Nat)) :=
  (pivotYears df).map fun y =>
    (y, (causesOf df).map fun c => (c, countYearCause df y c))

/-- Cell access in the pivot table: the series value of cause `c` at year
`y`, `none` only if the row or column label is absent. -/
def pivotLookup (df : Table) (y : ℤ) (c : String) : Option Nat :=
  match (plot_yearly_by_cause df).lookup y with
  | none => none
  | some row => row.lookup c

/-- `str.replace("/", "_")` with the one-character pattern `/`: every slash
in the string becomes an underscore. -/
def sanitize (s : String) : String :=
  String.mk (s.data.map fun ch => if ch = '/' then '_' else ch)

/-- The file name `plot_locations_by_cause` writes for cause `c`:
`f"fire_locations_{cause}.png".replace("/", "_")`. -/
def causeFileName (c : String) : String :=
  sanitize ("fire_locations_" ++ c ++ ".png")

/-- The rows of `df` belonging to cause `c`, i.e. one `groupby("CAUSE")`
group. -/
def groupOf (df : Table) (c : String) : Table :=
  df.filter fun r => decide (r.cause = some c)

/-- `plot_locations_by_cause(df, n)`: for each distinct non-null cause, the
written file name and the sampled location points
(`group[['LONGITUDE', 'LATITUDE']].sample(min(n, len(group)),
random_state=42)`). -/
def plot_locations_by_cause (df : Table) (n : Nat) :
    List (String × List (ℚ × ℚ)) :=
  (causesOf df).map fun c =>
    (causeFileName c,
      sampleRows 42 (min n (groupOf df c).length) (locations (groupOf df c)))

/-- `plot_causes(df)`: the bar heights of `fire_causes.png`, namely
`df['CAUSE'].value_counts()`. -/
def plot_causes_counts (df : Table) : List (String × Nat) :=
  value_counts (df.map Record.cause)

/-- The five columns `load_data` reads with `usecols`. -/
def requiredCols : List String :=
  ["LATITUDE", "LONGITUDE", "YEAR", "SIZE_HA", "CAUSE"]

/-- A file as the loader sees it: the column names present in the header,
and the parsed rows of the five relevant columns. -/
structure RawFile where
  header : List String
  rows : Table

/-- The loader failures of the spec's taxonomy: missing file, or a required
column absent from the header.  Either aborts the process (nonzero exit). -/
inductive DataAccessError where
  | fileNotFound : DataAccessError
  | missingColumn : String → DataAccessError
deriving DecidableEq

/-- `pd.read_csv(path, usecols=cols)`: errors if the file is absent or some
requested column is not in the header, otherwise yields the rows. -/
def read_csv (file : Option RawFile) (usecols : List String) :
    Except DataAccessError Table :=
  match file with
  | none => Except.error DataAccessError.fileNotFound
  | some f =>
    match usecols.find? (fun c => decide (c ∉ f.header)) with
    | some c => Except.error (DataAccessError.missingColumn c)
    | none => Except.ok f.rows

/-- `load_data(path)`: read the five required columns from the file the
filesystem `fs` associates to `path`. -/
def load_data (fs : String → Option RawFile) (path : String) :
    Except DataAccessError Table :=
  read_csv (fs path) requiredCols

/-- The parsed command line arguments of `parse_args`. -/
structure Args where
  file : String
  sample_size : Nat
  cause_sample_size : Nat
  no_plots : Bool

/-- The image files a full plotting run writes, in order: the four fixed
names and one file per distinct cause. -/
def allPlotFiles (df : Table) : List String :=
  ["fires_per_year.png", "fire_causes.png", "fire_locations_sample.png",
    "fires_by_cause_year.png"] ++ (causesOf df).map causeFileName

/-- Observable outcome of a successful run: console lines, the printed cause
frequency rows, and the image files written. -/
structure RunOutput where
  lines : List String
  causeCounts : List (String × Nat)
  files : List String

/-- `main()`: load, summarise, and (unless `--no-plots`) generate every
plot.  A loader error propagates uncaught (`Except.error`), terminating the
process with a nonzero exit status. -/
def main (fs : String → Option RawFile) (args : Args) :
    Except DataAccessError RunOutput :=
  match load_data fs args.file with
  | Except.error e => Except.error e
  | Except.ok df =>
    Except.ok
      { lines := summaryLines df
        causeCounts := (summary df).causeCounts
        files := if args.no_plots then [] else allPlotFiles df }

/-- Concrete table with causes Lightning ×3, Human ×2 (the spec's example). -/
def dfExample : Table :=
  [ { latitude := 50, longitude := -100, year := 2000, size_ha := 1,
      cause := some "Lightning" },
    { latitude := 51, longitude := -101, year := 2000, size_ha := 2,
      cause := some "Lightning" },
    { latitude := 52, longitude := -102, year := 2001, size_ha := 3,
      cause := some "Lightning" },
    { latitude := 53, longitude := -103, year := 2001, size_ha := 4,
      cause := some "Human" },
    { latitude := 54, longitude := -104, year := 2002, size_ha := 5,
      cause := some "Human" } ]

/-- Concrete one-record table for the summary witness. -/
def dfOne : Table :=
  [ { latitude := 60, longitude := -110, year := 1999, size_ha := 7,
      cause := some "Lightning" } ]

/-- Concrete two-record table (distinct years and causes) for the pivot
witness: the combination (2000, "Human") is absent. -/
def dfPivot : Table :=
  [ { latitude := 50, longitude := -100, year := 2000, size_ha := 1,
      cause := some "Lightning" },
    { latitude := 51, longitude := -101, year := 2001, size_ha := 2,
      cause := some "Human" } ]

/-- Concrete table whose causes include a label containing a slash. -/
def dfSlash : Table :=
  [ { latitude := 50, longitude := -100, year := 2000, size_ha := 1,
      cause := some "A/B" },
    { latitude := 51, longitude := -101, year := 2001, size_ha := 2,
      cause := some "C" } ]

/-- Concrete table with a null cause next to a non-null one. -/
def dfNull : Table :=
  [ { latitude := 50, longitude := -100, year := 2000, size_ha := 1,
      cause := some "Lightning" },
    { latitude := 51, longitude := -101, year := 2001, size_ha := 2,
      cause := none } ]

/-- A filesystem with no file at any path. -/
def fsMissing : String → Option RawFile := fun _ => none

/-- A filesystem whose every path holds a well-formed data file with the
five required columns and the rows of `dfExample`. -/
def fsGood : String → Option RawFile :=
  fun _ => some { header := requiredCols, rows := dfExample }

/-- A filesystem whose file lacks the `CAUSE` column. -/
def fsNoCause : String → Option RawFile :=
  fun _ => some
    { header := ["LATITUDE", "LONGITUDE", "YEAR", "SIZE_HA"]
      rows := [] }

/-- Arguments selecting `--no-plots`. -/
def argsNoPlots : Args :=
  { file := "NFDB_point_20240613.txt", sample_size := 10000,
    cause_sample_size := 5000, no_plots := true }

/-- Arguments with plotting enabled, pointing at a missing file. -/
def argsDefault : Args :=
  { file := "missing.txt", sample_size := 10000,
    cause_sample_size := 5000, no_plots := false }

/-! ## Supporting lemmas -/

theorem mem_dedupFirstAux {α : Type} [DecidableEq α] (seen : List α)
    (l : List α) (b : α) :
    b ∈ dedupFirstAux seen l ↔ b ∈ l ∧ b ∉ seen := by
  induction l generalizing seen with
  | nil => simp [dedupFirstAux]
  | cons a t ih =>
    by_cases ha : a ∈ seen
    · rw [dedupFirstAux, if_pos ha, ih]
      constructor
      · rintro ⟨h1, h2⟩
        exact ⟨List.mem_cons_of_mem a h1, h2⟩
      · rintro ⟨h1, h2⟩
        rcases List.mem_cons.mp h1 with h1 | h1
        · exact absurd (h1 ▸ ha) h2
        · exact ⟨h1, h2⟩
    · rw [dedupFirstAux, if_neg ha]
      simp only [List.mem_cons, ih]
      by_cases hba : b = a
      · subst hba
        simp [ha]
      · simp [hba, not_or]

theorem mem_dedupFirst {α : Type} [DecidableEq α] (l : List α) (b : α) :
    b ∈ dedupFirst l ↔ b ∈ l := by
  rw [dedupFirst, mem_dedupFirstAux]
  simp

theorem nodup_dedupFirstAux {α : Type} [DecidableEq α] (seen : List α)
    (l : List α) : (dedupFirstAux seen l).Nodup := by
  induction l generalizing seen with
  | nil => simp [dedupFirstAux]
  | cons a t ih =>
    by_cases ha : a ∈ seen
    · rw [dedupFirstAux, if_pos ha]
      exact ih seen
    · rw [dedupFirstAux, if_neg ha]
      refine List.Nodup.cons ?_ (ih (a :: seen))
      intro hmem
      exact ((mem_dedupFirstAux (a :: seen) t a).mp hmem).2
        (List.mem_cons_self a seen)

theorem nodup_dedupFirst {α : Type} [DecidableEq α] (l : List α) :
    (dedupFirst l).Nodup :=
  nodup_dedupFirstAux [] l

theorem cons_getElem_eraseIdx_perm {α : Type} (l : List α) (i : Nat)
    (h : i < l.length) : (l[i] :: l.eraseIdx i).Perm l := by
  rw [List.eraseIdx_eq_take_drop_succ]
  have h2 : l.take i ++ l.drop i = l := List.take_append_drop i l
  have h3 : l[i] :: l.drop (i + 1) = l.drop i := List.getElem_cons_drop l i h
  have hp := (@List.perm_middle _ l[i] (l.take i) (l.drop (i + 1))).symm
  rw [h3, h2] at hp
  exact hp

theorem shuffle_perm {α : Type} (seed : Nat) (l : List α) :
    (shuffle seed l).Perm l := by
  match l with
  | [] => simp [shuffle]
  | x :: xs =>
    rw [shuffle]
    have hi : seed % (x :: xs).length < (x :: xs).length :=
      Nat.mod_lt _ (by simp)
    have key := cons_getElem_eraseIdx_perm (x :: xs) (seed % (x :: xs).length) hi
    rw [← List.getD_eq_getElem (x :: xs) x hi] at key
    exact ((shuffle_perm (lcg seed) _).cons _).trans key
termination_by l.length
decreasing_by
  simp [List.length_eraseIdx, Nat.mod_lt]

theorem sampleRows_length {α : Type} (seed k : Nat) (l : List α) :
    (sampleRows seed k l).length = min k l.length := by
  simp [sampleRows, (shuffle_perm seed l).length_eq]

theorem sampleRows_subperm {α : Type} (seed k : Nat) (l : List α) :
    (sampleRows seed k l).Subperm l :=
  ((List.take_sublist k (shuffle seed l)).subperm).trans
    (shuffle_perm seed l).subperm

theorem sampleRows_all {α : Type} (seed k : Nat) (l : List α)
    (h : l.length ≤ k) : (sampleRows seed k l).Perm l := by
  rw [sampleRows, List.take_of_length_le (by rw [(shuffle_perm seed l).length_eq]; exact h)]
  exact shuffle_perm seed l

theorem lookup_map_pair {α β : Type} [DecidableEq α] (l : List α) (f : α → β)
    (a : α) (h : a ∈ l) :
    (l.map fun x => (x, f x)).lookup a = some (f a) := by
  induction l with
  | nil => cases h
  | cons b t ih =>
    rw [List.map_cons]
    by_cases hab : a = b
    · subst hab
      simp [List.lookup]
    · have h' : a ∈ t := by
        rcases List.mem_cons.mp h with h₁ | h₁
        · exact absurd h₁ hab
        · exact h₁
      have hb : (a == b) = false := by simp [hab]
      simp [List.lookup, hb, ih h']

theorem dropNull_filterMap (df : Table) :
    (dropNullCause df).filterMap Record.cause = df.filterMap Record.cause := by
  induction df with
  | nil => rfl
  | cons r t ih =>
    cases hc : r.cause <;>
      simp [dropNullCause, List.filter_cons, List.filterMap_cons, hc, ih,
        dropNullCause] at ih ⊢ <;> simp [ih]

theorem dropNull_idem (df : Table) :
    dropNullCause (dropNullCause df) = dropNullCause df := by
  simp only [dropNullCause, List.filter_filter]
  apply List.filter_congr
  intro r _
  exact Bool.and_self _

theorem countYearCause_dropNull (df : Table) (y : ℤ) (c : String) :
    countYearCause (dropNullCause df) y c = countYearCause df y c := by
  simp only [countYearCause, dropNullCause, List.filter_filter]
  congr 1
  apply List.filter_congr
  intro r _
  cases hc : r.cause <;> simp [matchYC, hc]

theorem groupOf_dropNull (df : Table) (c : String) :
    groupOf (dropNullCause df) c = groupOf df c := by
  simp only [groupOf, dropNullCause, List.filter_filter]
  apply List.filter_congr
  intro r _
  cases hc : r.cause <;> simp [hc]

/-! ## Claim theorems -/

/-- C1: for every nonempty input table, `summary` prints a total-fires figure
equal to the number of records in the table, and prints the arithmetic mean
and the median of the `size_ha` column each equal to a direct recomputation
over the same table rounded to two decimals (the empty-table case, where both
statistics are displayed as `nan`, is the subject of C8). -/
theorem summary_statistics_spec (df : Table) (h : df ≠ []) :
    (summary df).totalFires = df.length ∧
    (summary df).avgSizeDisplayed =
      some (roundTo2 ((sizes df).sum / ((sizes df).length : ℚ))) ∧
    (summary df).medianSizeDisplayed =
      some (roundTo2
        (((sortedVals (sizes df)).getD (((sizes df).length - 1) / 2) 0 +
          (sortedVals (sizes df)).getD ((sizes df).length / 2) 0) / 2)) := by
  have hne : (sizes df).isEmpty = false := by
    simp [sizes, List.isEmpty_iff, h]
  refine ⟨rfl, ?_, ?_⟩ <;> simp [summary, mean, median, hne]

/-- Witness for C1 at a concrete one-record table. -/
theorem summary_statistics_spec_witness :
    dfOne ≠ [] ∧
    ((summary dfOne).totalFires = dfOne.length ∧
      (summary dfOne).avgSizeDisplayed =
        some (roundTo2 ((sizes dfOne).sum / ((sizes dfOne).length : ℚ))) ∧
      (summary dfOne).medianSizeDisplayed =
        some (roundTo2
          (((sortedVals (sizes dfOne)).getD (((sizes dfOne).length - 1) / 2) 0 +
            (sortedVals (sizes dfOne)).getD ((sizes dfOne).length / 2) 0) / 2))) :=
  ⟨by decide, summary_statistics_spec dfOne (by decide)⟩

/-- C2: the cause-frequency listing of `summary` is sorted by descending
count, holds exactly one row per distinct (non-null) cause paired with its
frequency, and on a table with causes Lightning ×3, Human ×2 lists
`("Lightning", 3)` before `("Human", 2)`. -/
theorem cause_frequency_spec (df : Table) :
    ((summary df).causeCounts).Sorted causeLe ∧
    (∀ c k, (c, k) ∈ (summary df).causeCounts ↔
      (some c ∈ df.map Record.cause ∧
        k = ((df.map Record.cause).filterMap id).count c)) ∧
    (((summary df).causeCounts).map Prod.fst).Nodup ∧
    (summary dfExample).causeCounts = [("Lightning", 3), ("Human", 2)] := by
  refine ⟨?_, ?_, ?_, by decide⟩
  · exact List.sorted_insertionSort causeLe _
  · intro c k
    show (c, k) ∈ value_counts (df.map Record.cause) ↔ _
    rw [value_counts, (List.perm_insertionSort causeLe _).mem_iff,
      List.mem_map]
    constructor
    · rintro ⟨c', hc', heq⟩
      rw [Prod.ext_iff] at heq
      obtain ⟨h1, h2⟩ := heq
      subst h1
      refine ⟨?_, h2.symm⟩
      have := (mem_dedupFirst _ c').mp hc'
      simpa [List.mem_filterMap] using this
    · rintro ⟨hc, hk⟩
      refine ⟨c, (mem_dedupFirst _ c).mpr ?_, by rw [hk]⟩
      simpa [List.mem_filterMap] using hc
  · have hperm : List.Perm (((summary df).causeCounts).map Prod.fst)
        (((dedupFirst ((df.map Record.cause).filterMap id)).map
          (fun c => (c, ((df.map Record.cause).filterMap id).count c))).map
          Prod.fst) :=
      (List.perm_insertionSort causeLe _).map Prod.fst
    rw [List.map_map] at hperm
    refine hperm.nodup_iff.mpr ?_
    simpa [Function.comp_def] using
      nodup_dedupFirst ((df.map Record.cause).filterMap id)

/-- C8: on the empty input table `summary` completes normally, printing a
total of zero, `nan` for both the mean and the median of `size_ha`, and an
empty cause listing. -/
theorem summary_empty_table_spec :
    summaryLines [] =
      ["Total fires: 0", "Average size (ha): nan", "Median size (ha): nan"] ∧
    (summary []).totalFires = 0 ∧
    (summary []).avgSizeDisplayed = none ∧
    (summary []).medianSizeDisplayed = none ∧
    (summary []).causeCounts = [] :=
  ⟨rfl, rfl, rfl, rfl, rfl⟩

/-- C3: the location sample scatter draws exactly `min n (len df)` points,
without replacement (the sample is a sub-permutation of the table's location
column), and when `n` reaches or exceeds the table size the sample is the
entire table (up to order), with no error. -/
theorem sample_without_replacement_spec (df : Table) (n : Nat) :
    (plot_sample_locations df n).length = min n df.length ∧
    (plot_sample_locations df n).Subperm (locations df) ∧
    (df.length ≤ n → (plot_sample_locations df n).Perm (locations df)) := by
  have hlen : (locations df).length = df.length := by simp [locations]
  refine ⟨?_, sampleRows_subperm _ _ _, ?_⟩
  · rw [plot_sample_locations, sampleRows_length, hlen]
    omega
  · intro h
    exact sampleRows_all _ _ _ (by omega)

/-- Witness for C3: sampling five points from a two-record table returns the
whole location column. -/
theorem sample_without_replacement_spec_witness :
    dfPivot.length ≤ 5 ∧
    (plot_sample_locations dfPivot 5).Perm (locations dfPivot) :=
  ⟨by decide, (sample_without_replacement_spec dfPivot 5).2.2 (by decide)⟩

/-- C4: with the fixed seed 42 baked into `plot_sample_locations`, two runs
on the same table and sample size select the same sampled subset. -/
theorem sample_reproducibility_spec (df₁ df₂ : Table) (n₁ n₂ : Nat)
    (h : df₁ = df₂) (hn : n₁ = n₂) :
    plot_sample_locations df₁ n₁ = plot_sample_locations df₂ n₂ := by
  rw [h, hn]

/-- Witness for C4 at a concrete table and sample size. -/
theorem sample_reproducibility_spec_witness :
    dfExample = dfExample ∧
    plot_sample_locations dfExample 3 = plot_sample_locations dfExample 3 :=
  ⟨rfl, sample_reproducibility_spec dfExample dfExample 3 3 rfl rfl⟩

/-- C5: every (year, cause) cell of the observed-years × observed-causes
pivot is present and carries the group count; in particular a combination
absent from the data yields the entry `some 0`, not an absent entry. -/
theorem yearly_pivot_fill_zero_spec (df : Table) (y : ℤ) (c : String)
    (hy : y ∈ pivotYears df) (hc : c ∈ causesOf df) :
    pivotLookup df y c = some (countYearCause df y c) ∧
    ((∀ r ∈ df, ¬(r.year = y ∧ r.cause = some c)) →
      pivotLookup df y c = some 0) := by
  have h1 := lookup_map_pair (pivotYears df)
    (fun y => (causesOf df).map fun c => (c, countYearCause df y c)) y hy
  have h2 := lookup_map_pair (causesOf df)
    (fun c => countYearCause df y c) c hc
  have hmain : pivotLookup df y c = some (countYearCause df y c) := by
    simp only [pivotLookup, plot_yearly_by_cause, h1]
    exact h2
  refine ⟨hmain, ?_⟩
  intro hn
  have hz : countYearCause df y c = 0 := by
    rw [countYearCause, List.length_eq_zero]
    refine List.filter_eq_nil_iff.mpr ?_
    intro r hr
    simp only [matchYC, Bool.and_eq_true, decide_eq_true_eq]
    exact fun hcontr => hn r hr ⟨hcontr.1, hcontr.2⟩
  rw [hmain, hz]

/-- Witness for C5: in `dfPivot` the year 2000 and the cause Human are both
observed but never together, and the pivot cell holds zero. -/
theorem yearly_pivot_fill_zero_spec_witness :
    (2000 : ℤ) ∈ pivotYears dfPivot ∧ "Human" ∈ causesOf dfPivot ∧
    (∀ r ∈ dfPivot, ¬(r.year = 2000 ∧ r.cause = some "Human")) ∧
    pivotLookup dfPivot 2000 "Human" = some 0 :=
  ⟨by decide, by decide, by decide,
    (yearly_pivot_fill_zero_spec dfPivot 2000 "Human" (by decide)
      (by decide)).2 (by decide)⟩

/-- C6: the per-cause scatter operation writes exactly one image file per
distinct (non-null) cause present in the data, named by replacing every `/`
of the cause label with `_`, and each file's points are a sample of at most
`n` records drawn without replacement from that cause's rows. -/
theorem per_cause_files_spec (df : Table) (n : Nat) :
    (plot_locations_by_cause df n).length = (causesOf df).length ∧
    (plot_locations_by_cause df n).map Prod.fst =
      (causesOf df).map causeFileName ∧
    (∀ c ∈ causesOf df,
      (causeFileName c,
        sampleRows 42 (min n (groupOf df c).length)
          (locations (groupOf df c))) ∈ plot_locations_by_cause df n ∧
      (sampleRows 42 (min n (groupOf df c).length)
        (locations (groupOf df c))).length = min n (groupOf df c).length ∧
      (sampleRows 42 (min n (groupOf df c).length)
        (locations (groupOf df c))).Subperm (locations (groupOf df c))) := by
  refine ⟨by simp [plot_locations_by_cause], ?_, ?_⟩
  · simp [plot_locations_by_cause, List.map_map, Function.comp_def]
  · intro c hc
    refine ⟨List.mem_map_of_mem _ hc, ?_, sampleRows_subperm _ _ _⟩
    rw [sampleRows_length]
    have hlen : (locations (groupOf df c)).length = (groupOf df c).length := by
      simp [locations]
    rw [hlen]
    omega

/-- Witness for C6: the cause `A/B` of `dfSlash` yields the sanitized file
name, one entry of the output listing. -/
theorem per_cause_files_spec_witness :
    "A/B" ∈ causesOf dfSlash ∧
    causeFileName "A/B" = "fire_locations_A_B.png" ∧
    ((causeFileName "A/B",
        sampleRows 42 (min 3 (groupOf dfSlash "A/B").length)
          (locations (groupOf dfSlash "A/B"))) ∈
            plot_locations_by_cause dfSlash 3 ∧
      (sampleRows 42 (min 3 (groupOf dfSlash "A/B").length)
        (locations (groupOf dfSlash "A/B"))).length =
          min 3 (groupOf dfSlash "A/B").length ∧
      (sampleRows 42 (min 3 (groupOf dfSlash "A/B").length)
        (locations (groupOf dfSlash "A/B"))).Subperm
          (locations (groupOf dfSlash "A/B"))) :=
  ⟨by decide, by decide,
    (per_cause_files_spec dfSlash 3).2.2 "A/B" (by decide)⟩

/-- C7: the loader fails with a `DataAccessError` when the file is missing or
some required column is absent from the header, and such an error propagates
uncaught through `main` to the process boundary (`Except.error`, a nonzero
exit status). -/
theorem load_failure_spec (fs : String → Option RawFile) (path : String) :
    (fs path = none →
      load_data fs path = Except.error DataAccessError.fileNotFound) ∧
    (∀ f, fs path = some f → ∀ c ∈ requiredCols, c ∉ f.header →
      ∃ c', load_data fs path =
        Except.error (DataAccessError.missingColumn c')) ∧
    (∀ (args : Args) (e : DataAccessError), args.file = path →
      load_data fs path = Except.error e → main fs args = Except.error e) := by
  refine ⟨?_, ?_, ?_⟩
  · intro h
    simp [load_data, read_csv, h]
  · intro f hf c hc hnc
    rw [load_data, hf]
    cases hfind : requiredCols.find? (fun c => decide (c ∉ f.header)) with
    | some c' => exact ⟨c', by simp only [read_csv, hfind]⟩
    | none =>
      exfalso
      have hnone := List.find?_eq_none.mp hfind c hc
      simp only [decide_eq_true_eq] at hnone
      exact hnone hnc
  · intro args e hfile herr
    simp [main, hfile, herr]

/-- Witness for C7: a missing file makes `load_data` fail and `main` exit
with the error. -/
theorem load_failure_spec_witness :
    fsMissing "missing.txt" = none ∧ argsDefault.file = "missing.txt" ∧
    load_data fsMissing "missing.txt" =
      Except.error DataAccessError.fileNotFound ∧
    main fsMissing argsDefault = Except.error DataAccessError.fileNotFound :=
  ⟨rfl, rfl, (load_failure_spec fsMissing "missing.txt").1 rfl,
    (load_failure_spec fsMissing "missing.txt").2.2 argsDefault
      DataAccessError.fileNotFound rfl rfl⟩

/-- C9: with `--no-plots` the run still produces the console summary output
but writes zero image files. -/
theorem no_plots_spec (fs : String → Option RawFile) (args : Args)
    (df : Table) (h : args.no_plots = true)
    (hload : load_data fs args.file = Except.ok df) :
    main fs args = Except.ok
      { lines := summaryLines df
        causeCounts := (summary df).causeCounts
        files := [] } := by
  simp [main, hload, h]

/-- Witness for C9 on a concrete filesystem and `--no-plots` arguments. -/
theorem no_plots_spec_witness :
    argsNoPlots.no_plots = true ∧
    load_data fsGood argsNoPlots.file = Except.ok dfExample ∧
    main fsGood argsNoPlots = Except.ok
      { lines := summaryLines dfExample
        causeCounts := (summary dfExample).causeCounts
        files := [] } :=
  ⟨rfl, rfl, no_plots_spec fsGood argsNoPlots dfExample rfl rfl⟩

/-- C10: records with a null cause are excluded from every cause-keyed
aggregation — the printed frequency table, the cause bar-chart counts, the
yearly-by-cause pivot, and the per-cause plots (so no file is produced for
the null cause) — while the printed total still counts them; on the concrete
table `dfNull` (one Lightning record, one null-cause record) the listing has
the single row `("Lightning", 1)` but the total is 2. -/
theorem null_cause_excluded_spec (df : Table) (n : Nat) :
    (summary df).totalFires = df.length ∧
    (summary df).causeCounts = (summary (dropNullCause df)).causeCounts ∧
    plot_causes_counts df = plot_causes_counts (dropNullCause df) ∧
    plot_yearly_by_cause df = plot_yearly_by_cause (dropNullCause df) ∧
    plot_locations_by_cause df n =
      plot_locations_by_cause (dropNullCause df) n ∧
    (summary dfNull).causeCounts = [("Lightning", 1)] ∧
    (summary dfNull).totalFires = 2 := by
  have hpresent : ((dropNullCause df).map Record.cause).filterMap id =
      (df.map Record.cause).filterMap id := by
    rw [List.filterMap_map, List.filterMap_map, Function.id_comp]
    exact dropNull_filterMap df
  have hvc : value_counts ((dropNullCause df).map Record.cause) =
      value_counts (df.map Record.cause) := by
    simp only [value_counts]
    rw [hpresent]
  have hcauses : causesOf (dropNullCause df) = causesOf df := by
    rw [causesOf, causesOf, dropNull_filterMap]
  have hyears : pivotYears (dropNullCause df) = pivotYears df := by
    rw [pivotYears, pivotYears, dropNull_idem]
  refine ⟨rfl, hvc.symm, hvc.symm, ?_, ?_, by decide, rfl⟩
  · rw [plot_yearly_by_cause, plot_yearly_by_cause, hyears, hcauses]
    simp only [countYearCause_dropNull]
  · rw [plot_locations_by_cause, plot_locations_by_cause, hcauses]
    simp only [groupOf_dropNull]

end FireData
